import Mathlib

/-!
Verification of the servo/ESC pulse-scheduling subsystem of
Robotics_Cape_Installer against its specification.

The repository ships the public header `library/include/rc/servo.h`, which
fixes the call surface (`rc_servo_init`, `rc_servo_cleanup`,
`rc_servo_power_rail_en`, `rc_servo_send_pulse_us` and the three normalized
variants), the channel constants (`RC_SERVO_CH_MIN = 1`, `RC_SERVO_CH_MAX = 8`,
`RC_SERVO_CH_ALL = 0`) and the normalized-to-microsecond conversion tables.
The C implementation file (servo.c) is not part of the sources, so the
behaviour behind each declaration is modelled from the specification
(marked `Modelled from the spec:` below), while the constants, signatures
and conversion tables come from the header itself.
-/

namespace RCServo

/-- `#define RC_SERVO_CH_MAX 8` from servo.h. -/
def RC_SERVO_CH_MAX : Int := 8

/-- `#define RC_SERVO_CH_MIN 1` from servo.h. -/
def RC_SERVO_CH_MIN : Int := 1

/-- `#define RC_SERVO_CH_ALL 0` from servo.h: channel 0 broadcasts to all. -/
def RC_SERVO_CH_ALL : Int := 0

/-- Process-wide lifecycle state of the subsystem
(spec §3 SubsystemState: Uninitialized → Running → Stopped). -/
inductive Lifecycle
  | Uninitialized
  | Running
  | Stopped
deriving DecidableEq, Repr

/-- Error taxonomy of the spec (§7). `HardwareFault` is listed there but no
modelled operation raises it. -/
inductive ServoError
  | NotInitialized
  | InvalidChannel
  | ResourceUnavailable
deriving DecidableEq, Repr

/-- Per-channel latest-pulse-width register plus active flag
(spec §3 ChannelSlot). Pulse widths are microsecond durations; they are kept
as exact rationals so that the codec's linear laws can be stated exactly. -/
structure ChannelSlot where
  width : ℚ
  active : Bool
deriving DecidableEq, Repr

/-- The safe default a slot holds before any command: 0us, inactive
(spec §4.2: "throttle-off equivalent, e.g. 0us or unset/inactive"). -/
def defaultSlot : ChannelSlot := ⟨0, false⟩

/-- All eight slots at the safe default. -/
def defaultSlots : Fin 8 → ChannelSlot := fun _ => defaultSlot

/-- The whole observable state of the subsystem: lifecycle, power-rail line,
the eight ChannelSlots, and a count of mapped shared resources (used to state
that re-init does not duplicate the mapping, spec §8). -/
structure SubsystemState where
  lifecycle : Lifecycle
  rail : Bool
  slots : Fin 8 → ChannelSlot
  resources : ℕ

instance : DecidableEq SubsystemState := fun a b => by
  cases a; cases b
  exact decidable_of_iff _ (iff_of_eq (SubsystemState.mk.injEq _ _ _ _ _ _ _ _)).symm

/-- The state of a freshly started process: Uninitialized, rail off,
default slots, no resource mapped. -/
def freshState : SubsystemState :=
  { lifecycle := .Uninitialized, rail := false, slots := defaultSlots, resources := 0 }

/-- A representative state of a subsystem that has completed `init()`:
Running, rail off, default slots, one mapped resource. -/
def runningState : SubsystemState :=
  { lifecycle := .Running, rail := false, slots := defaultSlots, resources := 1 }

/-- Result of a fallible call: `.ok ()` models the C return value 0,
`.error e` models -1 together with the documented failure reason. -/
abbrev ServoResult := Except ServoError Unit

/-- Modelled from the spec: the implementation of `rc_servo_init` (servo.c is
not among the sources). Per spec §4.2 it loads/starts the coprocessor program
if not already resident (modelled by the `avail` flag for whether the shared
resource can be mapped, and by incrementing `resources` exactly when a new
mapping is made), sets all ChannelSlots to the safe throttle-off default,
leaves the power rail OFF, and is an idempotent no-op success while already
Running (no second mapping). -/
def rc_servo_init (avail : Bool) (st : SubsystemState) : ServoResult × SubsystemState :=
  if st.lifecycle = .Running then
    (.ok (), { st with rail := false, slots := defaultSlots })
  else if avail then
    (.ok (), { lifecycle := .Running, rail := false, slots := defaultSlots,
               resources := st.resources + 1 })
  else
    (.error .ResourceUnavailable, st)

/-- Modelled from the spec: the implementation of `rc_servo_cleanup` (servo.c
is not among the sources). Per spec §4.2 it disables the power rail, stops
pulse emission (all slots inactive), releases the shared resource mapping and
transitions to Stopped; it is safe from every state and, matching the header's
`void` return type, reports no error outwardly. -/
def rc_servo_cleanup (_st : SubsystemState) : SubsystemState :=
  { lifecycle := .Stopped, rail := false, slots := defaultSlots, resources := 0 }

/-- Modelled from the spec: the implementation of `rc_servo_power_rail_en`
(servo.c is not among the sources). The header documents the parameter as
"0 to disable, non-zero to enable"; per spec §4.2 it fails with
`NotInitialized` before `init()` and is independent of pulse state (slots are
untouched). -/
def rc_servo_power_rail_en (en : Int) (st : SubsystemState) : ServoResult × SubsystemState :=
  if st.lifecycle = .Running then
    (.ok (), { st with rail := decide (en ≠ 0) })
  else
    (.error .NotInitialized, st)

/-- Modelled from the spec: the implementation of `rc_servo_send_pulse_us`
(servo.c is not among the sources). Per spec §4.3 it validates the channel is
in [0..8] (failing with `InvalidChannel` otherwise), requires the subsystem to
be Running (failing with `NotInitialized`), and then writes the command:
channel 0 broadcasts the width to all eight ChannelSlots as one atomic update,
channels 1..8 overwrite the single corresponding slot (last write wins),
marking it active so the Pulse Scheduler keeps re-emitting it. -/
def rc_servo_send_pulse_us (ch : Int) (us : ℚ) (st : SubsystemState) :
    ServoResult × SubsystemState :=
  if ch < RC_SERVO_CH_ALL ∨ RC_SERVO_CH_MAX < ch then
    (.error .InvalidChannel, st)
  else if st.lifecycle ≠ .Running then
    (.error .NotInitialized, st)
  else if ch = RC_SERVO_CH_ALL then
    (.ok (), { st with slots := fun _ => ⟨us, true⟩ })
  else
    (.ok (), { st with slots := fun i => if (i : ℤ) + 1 = ch then ⟨us, true⟩ else st.slots i })

/-- Pulse Codec, position map. Modelled from the spec (§4.1): the linear law
`width = 1500 + 600·input` with no internal clamping; servo.h documents the
same table (-1.5→600us, -1.0→900us, 0.0→1500us, 1.0→2100us, 1.5→2400us). -/
def positionToPulseWidth (input : ℚ) : ℚ := 1500 + 600 * input

/-- Pulse Codec, ESC throttle map. Modelled from the spec (§4.1): the linear
law `width = 1000 + 1000·input`, clamped only at the documented idle floor
(-0.1 → 900us) and not at the ceiling; servo.h documents the same table
(-0.1→900us, 0.0→1000us, 0.5→1500us, 1.0→2000us). -/
def throttleToPulseWidth (input : ℚ) : ℚ := max 900 (1000 + 1000 * input)

/-- Pulse Codec, One-Shot throttle map. Modelled from the spec (§4.1): the
same linear law scaled into the 125-250us band, `width = 125 + 125·input`,
with the -0.1 idle extension scaled proportionally (floor 112.5us). -/
def throttleToOneShotPulseWidth (input : ℚ) : ℚ := max (225 / 2) (125 + 125 * input)

/-- Modelled from the spec: `rc_servo_send_pulse_normalized` composes the
Pulse Codec with `rc_servo_send_pulse_us` (spec §4.3), with no additional
validation of the position range. -/
def rc_servo_send_pulse_normalized (ch : Int) (input : ℚ) (st : SubsystemState) :
    ServoResult × SubsystemState :=
  rc_servo_send_pulse_us ch (positionToPulseWidth input) st

/-- Modelled from the spec: `rc_servo_send_esc_pulse_normalized` composes the
ESC codec with `rc_servo_send_pulse_us` (spec §4.3, same failure modes). -/
def rc_servo_send_esc_pulse_normalized (ch : Int) (input : ℚ) (st : SubsystemState) :
    ServoResult × SubsystemState :=
  rc_servo_send_pulse_us ch (throttleToPulseWidth input) st

/-- Modelled from the spec: `rc_servo_send_oneshot_pulse_normalized` composes
the One-Shot codec with `rc_servo_send_pulse_us` (spec §4.3). -/
def rc_servo_send_oneshot_pulse_normalized (ch : Int) (input : ℚ) (st : SubsystemState) :
    ServoResult × SubsystemState :=
  rc_servo_send_pulse_us ch (throttleToOneShotPulseWidth input) st

/-- Mode of the coprocessor-resident Pulse Scheduler (spec §4.4):
Idle when no channel is active, Armed as soon as one is. -/
inductive SchedMode
  | Idle
  | Armed
deriving DecidableEq, Repr

/-- The scheduler is Armed exactly when at least one ChannelSlot is active
(spec §4.4 state machine). -/
def schedulerMode (st : SubsystemState) : SchedMode :=
  if ∃ i : Fin 8, (st.slots i).active = true then .Armed else .Idle

/-- What one scheduler refresh cycle emits: on every active channel, the most
recently stored pulse width; nothing on inactive channels (spec §4.4: the
scheduler autonomously re-emits the stored width on every active channel). -/
def emission (st : SubsystemState) : Fin 8 → Option ℚ :=
  fun i => if (st.slots i).active then some (st.slots i).width else none

/-- Modelled from the spec: the Pulse Scheduler's refresh clock. Its period
(in microseconds) lies in the tolerant 5-400Hz band documented for
servos/ESCs (spec §4.4): 2500us (400Hz) to 200000us (5Hz). -/
structure SchedClock where
  period_us : ℚ
  period_lb : 2500 ≤ period_us
  period_ub : period_us ≤ 200000

/-- Update rate of a scheduler clock in Hz. -/
def SchedClock.rate_hz (c : SchedClock) : ℚ := 1000000 / c.period_us

/-- A representative 50Hz scheduler clock. -/
def clock50 : SchedClock := ⟨20000, by norm_num, by norm_num⟩

/-- Host-side events that may happen between two scheduler refresh cycles:
the host staying silent, any of the four send calls, a power-rail toggle, a
re-init, or cleanup. -/
inductive HostEvent
  | idle
  | send (ch : Int) (us : ℚ)
  | sendNorm (ch : Int) (x : ℚ)
  | sendEsc (ch : Int) (x : ℚ)
  | sendOneshot (ch : Int) (x : ℚ)
  | railEn (en : Int)
  | init (avail : Bool)
  | cleanup

/-- Effect of a host event on the subsystem state. -/
def applyEvent (st : SubsystemState) : HostEvent → SubsystemState
  | .idle => st
  | .send ch us => (rc_servo_send_pulse_us ch us st).2
  | .sendNorm ch x => (rc_servo_send_pulse_normalized ch x st).2
  | .sendEsc ch x => (rc_servo_send_esc_pulse_normalized ch x st).2
  | .sendOneshot ch x => (rc_servo_send_oneshot_pulse_normalized ch x st).2
  | .railEn en => (rc_servo_power_rail_en en st).2
  | .init avail => (rc_servo_init avail st).2
  | .cleanup => rc_servo_cleanup st

/-- Effect of a sequence of host events. -/
def applyEvents (st : SubsystemState) (evs : List HostEvent) : SubsystemState :=
  evs.foldl applyEvent st

/-! ## Helper lemmas -/

lemma schedulerMode_armed_of (st : SubsystemState) (i : Fin 8)
    (h : (st.slots i).active = true) : schedulerMode st = .Armed := by
  unfold schedulerMode
  exact if_pos ⟨i, h⟩

lemma schedulerMode_eq_idle (st : SubsystemState)
    (h : ∀ i, (st.slots i).active = false) : schedulerMode st = .Idle := by
  unfold schedulerMode
  rw [if_neg]
  rintro ⟨i, hi⟩
  rw [h i] at hi
  exact Bool.false_ne_true hi

lemma send_invalid_channel (ch : Int) (us : ℚ) (st : SubsystemState)
    (h : ch < 0 ∨ 8 < ch) :
    rc_servo_send_pulse_us ch us st = (.error .InvalidChannel, st) := by
  unfold rc_servo_send_pulse_us RC_SERVO_CH_ALL RC_SERVO_CH_MAX
  rw [if_pos h]

lemma send_not_initialized (ch : Int) (us : ℚ) (st : SubsystemState)
    (h0 : 0 ≤ ch) (h8 : ch ≤ 8) (hrun : st.lifecycle ≠ .Running) :
    rc_servo_send_pulse_us ch us st = (.error .NotInitialized, st) := by
  unfold rc_servo_send_pulse_us RC_SERVO_CH_ALL RC_SERVO_CH_MAX
  rw [if_neg (by omega), if_pos hrun]

/-- Anatomy of a successful send: the subsystem was Running, the channel was
in range, the addressed slot(s) now hold the commanded width and are active,
untouched slots are unchanged, and the scheduler is Armed. -/
lemma send_ok_dest (ch : Int) (us : ℚ) (st st1 : SubsystemState)
    (h : rc_servo_send_pulse_us ch us st = (.ok (), st1)) :
    st.lifecycle = .Running ∧ 0 ≤ ch ∧ ch ≤ 8 ∧
    (∀ i : Fin 8, (i : ℤ) + 1 = ch → st1.slots i = ⟨us, true⟩) ∧
    (ch = 0 → ∀ i, st1.slots i = ⟨us, true⟩) ∧
    (∀ i : Fin 8, (i : ℤ) + 1 ≠ ch → ch ≠ 0 → st1.slots i = st.slots i) ∧
    schedulerMode st1 = .Armed := by
  unfold rc_servo_send_pulse_us RC_SERVO_CH_ALL RC_SERVO_CH_MAX at h
  split_ifs at h with h1 h2 h3
  · simp at h
  · simp at h
  · injection h with he hst
    subst hst
    subst h3
    exact ⟨not_not.mp h2, le_refl 0, by norm_num, fun i _ => rfl, fun _ i => rfl,
      fun i _ hc => absurd rfl hc, schedulerMode_armed_of _ 0 rfl⟩
  · injection h with he hst
    subst hst
    have hb : (ch - 1).toNat < 8 := by omega
    refine ⟨not_not.mp h2, by omega, by omega, fun i hi => ?_, fun hc => absurd hc h3,
      fun i hi _ => ?_, ?_⟩
    · show (if (i : ℤ) + 1 = ch then (⟨us, true⟩ : ChannelSlot) else st.slots i) = ⟨us, true⟩
      rw [if_pos hi]
    · show (if (i : ℤ) + 1 = ch then (⟨us, true⟩ : ChannelSlot) else st.slots i) = st.slots i
      rw [if_neg hi]
    · refine schedulerMode_armed_of _ ⟨(ch - 1).toNat, hb⟩ ?_
      have hcond : ((⟨(ch - 1).toNat, hb⟩ : Fin 8) : ℤ) + 1 = ch := by
        have hv : ((⟨(ch - 1).toNat, hb⟩ : Fin 8) : ℤ) = (((ch - 1).toNat : ℕ) : ℤ) := rfl
        rw [hv]; omega
      show (if ((⟨(ch - 1).toNat, hb⟩ : Fin 8) : ℤ) + 1 = ch then (⟨us, true⟩ : ChannelSlot)
            else st.slots ⟨(ch - 1).toNat, hb⟩).active = true
      rw [if_pos hcond]

lemma send_preserves_armed (ch : Int) (us : ℚ) (st : SubsystemState)
    (h : schedulerMode st = .Armed) :
    schedulerMode (rc_servo_send_pulse_us ch us st).2 = .Armed := by
  unfold rc_servo_send_pulse_us RC_SERVO_CH_ALL RC_SERVO_CH_MAX
  split_ifs with h1 h2 h3
  · exact h
  · exact h
  · exact schedulerMode_armed_of _ 0 rfl
  · have hb : (ch - 1).toNat < 8 := by omega
    refine schedulerMode_armed_of _ ⟨(ch - 1).toNat, hb⟩ ?_
    have hcond : ((⟨(ch - 1).toNat, hb⟩ : Fin 8) : ℤ) + 1 = ch := by
      have hv : ((⟨(ch - 1).toNat, hb⟩ : Fin 8) : ℤ) = (((ch - 1).toNat : ℕ) : ℤ) := rfl
      rw [hv]; omega
    show (if ((⟨(ch - 1).toNat, hb⟩ : Fin 8) : ℤ) + 1 = ch then (⟨us, true⟩ : ChannelSlot)
          else st.slots ⟨(ch - 1).toNat, hb⟩).active = true
    rw [if_pos hcond]

lemma applyEvent_preserves_armed (st : SubsystemState) (e : HostEvent)
    (h : schedulerMode st = .Armed)
    (hni : ∀ a, e ≠ .init a) (hnc : e ≠ .cleanup) :
    schedulerMode (applyEvent st e) = .Armed := by
  cases e with
  | idle => exact h
  | send ch us => exact send_preserves_armed ch us st h
  | sendNorm ch x => exact send_preserves_armed ch (positionToPulseWidth x) st h
  | sendEsc ch x => exact send_preserves_armed ch (throttleToPulseWidth x) st h
  | sendOneshot ch x => exact send_preserves_armed ch (throttleToOneShotPulseWidth x) st h
  | railEn en =>
      show schedulerMode (rc_servo_power_rail_en en st).2 = .Armed
      unfold rc_servo_power_rail_en
      split_ifs <;> exact h
  | init a => exact absurd rfl (hni a)
  | cleanup => exact absurd rfl hnc

lemma armed_until_deactivation (evs : List HostEvent) :
    ∀ st : SubsystemState, schedulerMode st = .Armed →
      HostEvent.cleanup ∉ evs → (∀ a, HostEvent.init a ∉ evs) →
      schedulerMode (applyEvents st evs) = .Armed := by
  induction evs with
  | nil => exact fun st h _ _ => h
  | cons e rest ih =>
      intro st h hcl hin
      have hnc : e ≠ HostEvent.cleanup := fun hh => hcl (by rw [hh]; exact List.mem_cons_self _ _)
      have hni : ∀ a, e ≠ HostEvent.init a :=
        fun a hh => hin a (by rw [hh]; exact List.mem_cons_self _ _)
      exact ih (applyEvent st e) (applyEvent_preserves_armed st e h hni hnc)
        (fun hh => hcl (List.mem_cons_of_mem e hh))
        (fun a hh => hin a (List.mem_cons_of_mem e hh))

lemma applyEvents_idle (st : SubsystemState) (n : ℕ) :
    applyEvents st (List.replicate n .idle) = st := by
  induction n with
  | zero => rfl
  | succ k ih => exact ih

lemma rate_hz_band (c : SchedClock) : 5 ≤ c.rate_hz ∧ c.rate_hz ≤ 400 := by
  have hpos : (0 : ℚ) < c.period_us := lt_of_lt_of_le (by norm_num) c.period_lb
  unfold SchedClock.rate_hz
  constructor
  · rw [le_div_iff₀ hpos]
    linarith [c.period_ub]
  · rw [div_le_iff₀ hpos]
    linarith [c.period_lb]

/-! ## Claim theorems -/

/-- C5: `positionToPulseWidth` is exactly the linear map `1500 + 600·x` for
every input, with no internal clamping (out-of-range inputs such as 2 follow
the same law), it matches the servo.h table (-1.5→600, -1→900, 0→1500,
1→2100, 1.5→2400), and it is monotonic increasing. -/
theorem c5_position_codec_linear :
    (∀ x : ℚ, positionToPulseWidth x = 1500 + 600 * x) ∧
    positionToPulseWidth (-(3 / 2)) = 600 ∧
    positionToPulseWidth 0 = 1500 ∧
    positionToPulseWidth (3 / 2) = 2400 ∧
    positionToPulseWidth (-1) = 900 ∧
    positionToPulseWidth 1 = 2100 ∧
    positionToPulseWidth 2 = 2700 ∧
    (∀ x y : ℚ, x < y → positionToPulseWidth x < positionToPulseWidth y) := by
  unfold positionToPulseWidth
  refine ⟨fun x => rfl, by norm_num, by norm_num, by norm_num, by norm_num, by norm_num,
    by norm_num, fun x y h => by linarith⟩

/-- Witness for C5: the monotonicity part at the concrete pair 0 < 1, and the
center anchor. -/
theorem c5_witness :
    positionToPulseWidth 0 = 1500 ∧ positionToPulseWidth 0 < positionToPulseWidth 1 :=
  ⟨c5_position_codec_linear.2.2.1,
   c5_position_codec_linear.2.2.2.2.2.2.2 0 1 (by norm_num)⟩

/-- C6: `throttleToPulseWidth` is the linear map `1000 + 1000·input` on the
whole declared band [-0.1, 1.0] (0→1000, 1→2000, -0.1→900, matching the
servo.h ESC table), is clamped at the documented 900us idle floor below -0.1,
and is not clamped at the ceiling (inputs ≥ 1 still follow the linear law). -/
theorem c6_throttle_codec_linear :
    (∀ x : ℚ, -(1 / 10) ≤ x → x ≤ 1 → throttleToPulseWidth x = 1000 + 1000 * x) ∧
    throttleToPulseWidth 0 = 1000 ∧
    throttleToPulseWidth 1 = 2000 ∧
    throttleToPulseWidth (1 / 2) = 1500 ∧
    throttleToPulseWidth (-(1 / 10)) = 900 ∧
    (∀ x : ℚ, x < -(1 / 10) → throttleToPulseWidth x = 900) ∧
    (∀ x : ℚ, 1 ≤ x → throttleToPulseWidth x = 1000 + 1000 * x) := by
  unfold throttleToPulseWidth
  refine ⟨fun x h1 h2 => max_eq_right (by linarith), ?_, ?_, ?_, ?_,
    fun x h => max_eq_left (by linarith), fun x h => max_eq_right (by linarith)⟩ <;>
    (rw [max_eq_right] <;> norm_num)

/-- Witness for C6: the linear law at 1/2 and the ceiling-free law at 2. -/
theorem c6_witness :
    throttleToPulseWidth (1 / 2) = 1000 + 1000 * (1 / 2) ∧
    throttleToPulseWidth 2 = 1000 + 1000 * 2 :=
  ⟨c6_throttle_codec_linear.1 (1 / 2) (by norm_num) (by norm_num),
   c6_throttle_codec_linear.2.2.2.2.2.2 2 (by norm_num)⟩

/-- C7 counterexample: the claim states the -0.1 idle extension yields an
integral PulseWidth, but the linear law 125 + 125·input gives
125 + 125·(-1/10) = 112.5us at -0.1, which is not an integer. -/
theorem c7_counterexample :
    throttleToOneShotPulseWidth (-(1 / 10)) = 225 / 2 ∧
    ¬ ∃ n : ℤ, (n : ℚ) = throttleToOneShotPulseWidth (-(1 / 10)) := by
  have h : throttleToOneShotPulseWidth (-(1 / 10)) = 225 / 2 := by
    unfold throttleToOneShotPulseWidth
    rw [max_eq_right] <;> norm_num
  refine ⟨h, ?_⟩
  rintro ⟨n, hn⟩
  rw [h] at hn
  have h2 : (2 * n : ℤ) = 225 := by
    have : (2 : ℚ) * (n : ℚ) = 225 := by linarith
    exact_mod_cast this
  omega

/-- C7 (amended): `throttleToOneShotPulseWidth` is the linear map
`125 + 125·input` on the whole band [-0.1, 1.0] (0→125, 1→250), and the -0.1
idle extension is scaled proportionally into the 125-250us band, yielding
112.5us — a non-integral value, not an integral PulseWidth. -/
theorem c7_oneshot_codec_amended :
    (∀ x : ℚ, -(1 / 10) ≤ x → x ≤ 1 → throttleToOneShotPulseWidth x = 125 + 125 * x) ∧
    throttleToOneShotPulseWidth 0 = 125 ∧
    throttleToOneShotPulseWidth 1 = 250 ∧
    throttleToOneShotPulseWidth (-(1 / 10)) = 225 / 2 := by
  unfold throttleToOneShotPulseWidth
  refine ⟨fun x h1 h2 => max_eq_right (by linarith), ?_, ?_, ?_⟩ <;>
    (rw [max_eq_right] <;> norm_num)

/-- Witness for C7 (amended): the linear law applied at the concrete input
1/2 with both band bounds discharged. -/
theorem c7_witness :
    throttleToOneShotPulseWidth (1 / 2) = 125 + 125 * (1 / 2) :=
  c7_oneshot_codec_amended.1 (1 / 2) (by norm_num) (by norm_num)

/-- C9: `rc_servo_cleanup` reports no error outwardly (its header type is
`void`), is safe to call from every lifecycle state — Uninitialized and
failed-init states included, since the result is the same total function of
any input state — and afterwards the power rail is off, no slot is active
(pulse emission has stopped, the scheduler is Idle), the shared resource
mapping is released, and the lifecycle is Stopped. -/
theorem c9_cleanup_always_safe (st : SubsystemState) :
    (rc_servo_cleanup st).lifecycle = .Stopped ∧
    (rc_servo_cleanup st).rail = false ∧
    (∀ i, ((rc_servo_cleanup st).slots i).active = false) ∧
    (∀ i, emission (rc_servo_cleanup st) i = none) ∧
    schedulerMode (rc_servo_cleanup st) = .Idle ∧
    (rc_servo_cleanup st).resources = 0 :=
  ⟨rfl, rfl, fun _ => rfl, fun _ => rfl,
   schedulerMode_eq_idle _ (fun _ => rfl), rfl⟩

/-- C10: `rc_servo_power_rail_en` takes an int and treats it as the header
documents ("0 to disable, non-zero to enable"): when Running, the call
succeeds and the resulting rail state depends only on whether `en` is zero —
zero disables, every non-zero value enables; before `init()` it fails with
`NotInitialized` and changes nothing. -/
theorem c10_power_rail_en_int (en en2 : Int) (st : SubsystemState) :
    (st.lifecycle = .Running →
      (rc_servo_power_rail_en en st).1 = .ok () ∧
      ((rc_servo_power_rail_en en st).2.rail = true ↔ en ≠ 0) ∧
      (en = 0 → (rc_servo_power_rail_en en st).2.rail = false) ∧
      (en ≠ 0 → (rc_servo_power_rail_en en st).2.rail = true) ∧
      ((en = 0 ↔ en2 = 0) →
        (rc_servo_power_rail_en en st).2.rail = (rc_servo_power_rail_en en2 st).2.rail)) ∧
    (st.lifecycle ≠ .Running →
      rc_servo_power_rail_en en st = (.error .NotInitialized, st)) := by
  unfold rc_servo_power_rail_en
  constructor
  · intro h
    simp only [if_pos h]
    refine ⟨trivial, decide_eq_true_iff, fun h0 => by simp [h0], fun h0 => decide_eq_true h0,
      fun hiff => ?_⟩
    show decide (en ≠ 0) = decide (en2 ≠ 0)
    by_cases h0 : en = 0
    · have h2 := hiff.mp h0
      simp [h0, h2]
    · have h2 : en2 ≠ 0 := fun he => h0 (hiff.mpr he)
      rw [decide_eq_true h0, decide_eq_true h2]
  · intro h
    rw [if_neg h]

/-- C2 counterexample: with the subsystem not Running AND the channel out of
range (channel 9 on a fresh state), the claim requires the call to fail with
`NotInitialized`, but channel validation takes precedence and the call fails
with `InvalidChannel` instead. -/
theorem c2_counterexample :
    freshState.lifecycle ≠ .Running ∧
    (rc_servo_send_pulse_us 9 1500 freshState).1 = .error .InvalidChannel ∧
    (rc_servo_send_pulse_us 9 1500 freshState).1 ≠ .error .NotInitialized := by
  refine ⟨by decide, rfl, fun h => ?_⟩
  injection h with h2
  cases h2

/-- C2 (amended): channel validation takes precedence over the lifecycle
check: for each of the four send calls, a channel outside [0..8] fails with
`InvalidChannel` (whatever the lifecycle), a channel inside [0..8] when the
subsystem is not Running fails with `NotInitialized`, and in either failure
case the whole state — in particular every ChannelSlot — is unchanged. -/
theorem c2_failure_modes (ch : Int) (us x : ℚ) (st : SubsystemState) :
    ((ch < 0 ∨ 8 < ch) →
      rc_servo_send_pulse_us ch us st = (.error .InvalidChannel, st) ∧
      rc_servo_send_pulse_normalized ch x st = (.error .InvalidChannel, st) ∧
      rc_servo_send_esc_pulse_normalized ch x st = (.error .InvalidChannel, st) ∧
      rc_servo_send_oneshot_pulse_normalized ch x st = (.error .InvalidChannel, st)) ∧
    (0 ≤ ch → ch ≤ 8 → st.lifecycle ≠ .Running →
      rc_servo_send_pulse_us ch us st = (.error .NotInitialized, st) ∧
      rc_servo_send_pulse_normalized ch x st = (.error .NotInitialized, st) ∧
      rc_servo_send_esc_pulse_normalized ch x st = (.error .NotInitialized, st) ∧
      rc_servo_send_oneshot_pulse_normalized ch x st = (.error .NotInitialized, st)) :=
  ⟨fun h =>
    ⟨send_invalid_channel ch us st h,
     send_invalid_channel ch (positionToPulseWidth x) st h,
     send_invalid_channel ch (throttleToPulseWidth x) st h,
     send_invalid_channel ch (throttleToOneShotPulseWidth x) st h⟩,
   fun h0 h8 hrun =>
    ⟨send_not_initialized ch us st h0 h8 hrun,
     send_not_initialized ch (positionToPulseWidth x) st h0 h8 hrun,
     send_not_initialized ch (throttleToPulseWidth x) st h0 h8 hrun,
     send_not_initialized ch (throttleToOneShotPulseWidth x) st h0 h8 hrun⟩⟩

/-- Witness for C2 (amended): channel 9 fails with `InvalidChannel` leaving
the fresh state untouched; a valid channel (5) on the uninitialized fresh
state fails with `NotInitialized` leaving it untouched. -/
theorem c2_witness :
    rc_servo_send_pulse_us 9 1500 freshState = (.error .InvalidChannel, freshState) ∧
    rc_servo_send_pulse_us 5 1500 freshState = (.error .NotInitialized, freshState) :=
  ⟨((c2_failure_modes 9 1500 0 freshState).1 (by norm_num)).1,
   ((c2_failure_modes 5 1500 0 freshState).2 (by norm_num) (by norm_num) (by decide)).1⟩

/-- C3: broadcast `sendPulseUs(0, w)` is one all-or-nothing update: it
succeeds exactly when the subsystem is Running; after success every one of
the eight ChannelSlots holds ⟨w, active⟩ — so the two states observable
around the atomic call (the untouched pre-state and the post-state) never
show some slots with the new width while others still hold a prior value
from the same call, all post-state slots agreeing pairwise — and on failure
(`NotInitialized`; channel 0 is always a valid channel) no slot at all is
touched. -/
theorem c3_broadcast_atomic (w : ℚ) (st : SubsystemState) :
    ((rc_servo_send_pulse_us 0 w st).1 = .ok () ↔ st.lifecycle = .Running) ∧
    (st.lifecycle = .Running →
      (∀ i, ((rc_servo_send_pulse_us 0 w st).2).slots i = ⟨w, true⟩) ∧
      (∀ i j, ((rc_servo_send_pulse_us 0 w st).2).slots i =
              ((rc_servo_send_pulse_us 0 w st).2).slots j)) ∧
    (st.lifecycle ≠ .Running →
      rc_servo_send_pulse_us 0 w st = (.error .NotInitialized, st)) := by
  refine ⟨⟨fun hok => ?_, fun hrun => ?_⟩, fun hrun => ?_, fun hrun =>
    send_not_initialized 0 w st (le_refl 0) (by norm_num) hrun⟩
  · by_contra hrun
    rw [send_not_initialized 0 w st (le_refl 0) (by norm_num) hrun] at hok
    cases hok
  · show (rc_servo_send_pulse_us 0 w st).1 = .ok ()
    unfold rc_servo_send_pulse_us RC_SERVO_CH_ALL RC_SERVO_CH_MAX
    rw [if_neg (by norm_num), if_neg (not_not_intro hrun), if_pos rfl]
  · have hok : rc_servo_send_pulse_us 0 w st =
        (.ok (), { st with slots := fun _ => ⟨w, true⟩ }) := by
      unfold rc_servo_send_pulse_us RC_SERVO_CH_ALL RC_SERVO_CH_MAX
      rw [if_neg (by norm_num), if_neg (not_not_intro hrun), if_pos rfl]
    rw [hok]
    exact ⟨fun i => rfl, fun i j => rfl⟩

/-- Witness for C3: broadcasting 1700us on a Running state leaves slot 2 (and
every slot) at ⟨1700, active⟩; the same broadcast on the uninitialized fresh
state fails and touches nothing. -/
theorem c3_witness :
    ((rc_servo_send_pulse_us 0 1700 runningState).2).slots ⟨2, by norm_num⟩ = ⟨1700, true⟩ ∧
    rc_servo_send_pulse_us 0 1700 freshState = (.error .NotInitialized, freshState) :=
  ⟨(((c3_broadcast_atomic 1700 runningState).2.1) rfl).1 ⟨2, by norm_num⟩,
   ((c3_broadcast_atomic 1700 freshState).2.2) (by decide)⟩

/-- C4: immediately after every successful `rc_servo_init` — and hence before
any `sendPulseUs` call has acted on the resulting state — the power rail is
OFF, every one of the eight ChannelSlots holds the inactive/0us safe default,
the scheduler is Idle, and the subsystem is Running. -/
theorem c4_init_safe_defaults (avail : Bool) (st : SubsystemState)
    (h : (rc_servo_init avail st).1 = .ok ()) :
    (rc_servo_init avail st).2.rail = false ∧
    (rc_servo_init avail st).2.slots = defaultSlots ∧
    (∀ i, (rc_servo_init avail st).2.slots i = ⟨0, false⟩) ∧
    schedulerMode (rc_servo_init avail st).2 = .Idle ∧
    (rc_servo_init avail st).2.lifecycle = .Running := by
  unfold rc_servo_init at h ⊢
  split_ifs at h ⊢ with h1 h2
  · exact ⟨rfl, rfl, fun i => rfl, schedulerMode_eq_idle _ (fun i => rfl), h1⟩
  · exact ⟨rfl, rfl, fun i => rfl, schedulerMode_eq_idle _ (fun i => rfl), rfl⟩

/-- Witness for C4: a successful `init` on the fresh state leaves the rail
off and the subsystem Running. -/
theorem c4_witness :
    (rc_servo_init true freshState).2.rail = false ∧
    (rc_servo_init true freshState).2.lifecycle = .Running :=
  ⟨(c4_init_safe_defaults true freshState rfl).1,
   (c4_init_safe_defaults true freshState rfl).2.2.2.2⟩

/-- C8: `rc_servo_init` is idempotent while Running: whenever a call
succeeded, calling it again (with any resource availability) succeeds, leaves
the state — Running — exactly as it was, and maps no additional resource:
the resource count after the second call equals the count after the first. -/
theorem c8_init_idempotent (a b : Bool) (st st1 : SubsystemState)
    (h : rc_servo_init a st = (.ok (), st1)) :
    rc_servo_init b st1 = (.ok (), st1) ∧
    st1.lifecycle = .Running ∧
    (rc_servo_init b st1).2.resources = st1.resources := by
  unfold rc_servo_init at h
  split_ifs at h with h1 h2
  · injection h with he hst
    subst hst
    have h2 : rc_servo_init b { st with rail := false, slots := defaultSlots } =
        (.ok (), { st with rail := false, slots := defaultSlots }) := by
      unfold rc_servo_init
      rw [if_pos (show ({ st with rail := false, slots := defaultSlots } :
        SubsystemState).lifecycle = .Running from h1)]
    exact ⟨h2, h1, by rw [h2]⟩
  · injection h with he hst
    subst hst
    have h2 : rc_servo_init b ⟨.Running, false, defaultSlots, st.resources + 1⟩ =
        (.ok (), (⟨.Running, false, defaultSlots, st.resources + 1⟩ : SubsystemState)) := by
      unfold rc_servo_init
      rw [if_pos rfl]
    exact ⟨h2, rfl, by rw [h2]⟩
  · cases h

/-- Witness for C8: after a successful `init` from the fresh state, a second
`init` returns success and the identical state (resource count still 1). -/
theorem c8_witness :
    rc_servo_init true runningState = (.ok (), runningState) :=
  (c8_init_idempotent true true freshState runningState rfl).1

/-- Witness for C10: a non-zero value (7) enables the rail on a Running
state; before `init()` the call fails with `NotInitialized`. -/
theorem c10_witness :
    (rc_servo_power_rail_en 7 runningState).2.rail = true ∧
    rc_servo_power_rail_en 0 freshState = (.error .NotInitialized, freshState) :=
  ⟨((c10_power_rail_en_int 7 7 runningState).1 rfl).2.2.2.1 (by decide),
   (c10_power_rail_en_int 0 0 freshState).2 (by decide)⟩

/-- C1: once the subsystem is Running, a single successful `sendPulseUs` is
enough to keep pulses generated: the scheduler is Armed; the state — hence
what each refresh cycle emits — is unchanged by any number of host-idle steps
(autonomy, independent of host call timing, no further host calls needed); at
every refresh cycle the commanded channel (every channel for a broadcast, and
more generally every active channel) re-emits the most recently requested
width; the refresh rate stays within the 5-400Hz band; and the scheduler
returns to Idle only after an explicit deactivation — a re-`init`, which
resets all slots to the inactive default — or `cleanup()`. -/
theorem c1_scheduler_autonomy (ch : Int) (us : ℚ) (st st1 : SubsystemState) (c : SchedClock)
    (h : rc_servo_send_pulse_us ch us st = (.ok (), st1)) :
    schedulerMode st1 = .Armed ∧
    (∀ n : ℕ, applyEvents st1 (List.replicate n .idle) = st1) ∧
    (∀ n : ℕ, ∀ i : Fin 8, (i : ℤ) + 1 = ch →
      emission (applyEvents st1 (List.replicate n .idle)) i = some us) ∧
    (ch = 0 → ∀ n : ℕ, ∀ i : Fin 8,
      emission (applyEvents st1 (List.replicate n .idle)) i = some us) ∧
    (∀ n : ℕ, ∀ i : Fin 8, (st1.slots i).active = true →
      emission (applyEvents st1 (List.replicate n .idle)) i = some (st1.slots i).width) ∧
    (5 ≤ c.rate_hz ∧ c.rate_hz ≤ 400) ∧
    (∀ evs : List HostEvent, schedulerMode (applyEvents st1 evs) = .Idle →
      HostEvent.cleanup ∈ evs ∨ ∃ a, HostEvent.init a ∈ evs) := by
  obtain ⟨hrun, h0, h8, hone, hall, hother, harmed⟩ := send_ok_dest ch us st st1 h
  refine ⟨harmed, applyEvents_idle st1, ?_, ?_, ?_, rate_hz_band c, ?_⟩
  · intro n i hi
    rw [applyEvents_idle]
    unfold emission
    rw [hone i hi]
    rfl
  · intro hc n i
    rw [applyEvents_idle]
    unfold emission
    rw [hall hc i]
    rfl
  · intro n i hact
    rw [applyEvents_idle]
    unfold emission
    rw [if_pos hact]
  · intro evs hidle
    by_contra hcon
    push_neg at hcon
    have hstay := armed_until_deactivation evs st1 harmed hcon.1 (fun a => hcon.2 a)
    rw [hstay] at hidle
    cases hidle

/-- Witness for C1: sending 1500us on channel 3 of a Running state arms the
scheduler, and a representative 50Hz clock sits inside the 5-400Hz band. -/
theorem c1_witness :
    schedulerMode (rc_servo_send_pulse_us 3 1500 runningState).2 = .Armed ∧
    5 ≤ clock50.rate_hz ∧ clock50.rate_hz ≤ 400 := by
  have h : rc_servo_send_pulse_us 3 1500 runningState =
      (.ok (), (rc_servo_send_pulse_us 3 1500 runningState).2) := rfl
  have hc := c1_scheduler_autonomy 3 1500 runningState
    (rc_servo_send_pulse_us 3 1500 runningState).2 clock50 h
  exact ⟨hc.1, hc.2.2.2.2.2.1⟩

end RCServo
